import Mathlib

/-!
A verification development for the hybrid retrieval and context-assembly
orchestrator of the `blue-enigma-hybrid-ai` repository.  The Python sources
(`src/hybrid_chat.py`, `utils/embeddings.py`, `app.py`) are shallowly embedded
below: pure functions become Lean functions, the mutable embedding cache is
passed explicitly as state, exceptions become `Except`/`Option` values, wall
clock readings (`time.time()`) become explicit rational parameters, and the
Neo4j Cypher query executed by `query_neo4j_async` is modelled as a pure query
over a list of location nodes whose nullable properties are `Option String`.
Python `float` values carried in embeddings and scores are modelled by `Float`
(no arithmetic on them matters to any statement here); times are modelled by
`ℚ` so that durations are exact.
-/

/-- Python's `str.lower()` (ASCII-sufficient model, mapping `Char.toLower`
over the characters; stated on the character list so that it reduces in the
kernel). -/
def pyLower (s : String) : String :=
  (s.toList.map Char.toLower).asString

/-- Boolean substring test: Python's `needle in hay` on strings. -/
def substrB (needle hay : String) : Bool :=
  decide (needle.toList <:+: hay.toList)

/-- `travel_terms` from `hybrid_chat.py` lines 170-174. -/
def travel_terms : List String :=
  ["romantic", "adventure", "budget", "luxury", "family", "solo", "couple",
   "beach", "mountain", "culture", "food", "historical", "itinerary", "tour",
   "relax", "explore", "hiking", "cruise", "island", "city", "countryside"]

/-- `vietnam_locations` from `hybrid_chat.py` lines 163-167. -/
def vietnam_locations : List String :=
  ["hanoi", "ha long", "halong", "hue", "hoi an", "da nang", "nha trang",
   "saigon", "ho chi minh", "mekong", "sapa", "ninh binh", "phu quoc",
   "northern", "central", "southern", "da lat"]

/-- Python's `\s` whitespace class restricted to the ASCII characters that can
occur in our queries. -/
def isPySpace (c : Char) : Bool :=
  c = ' ' || c = '\t' || c = '\n' || c = '\x0d' || c = '\x0c' || c = '\x0b'

theorem length_dropWhile_le' (p : Char → Bool) (l : List Char) :
    (l.dropWhile p).length ≤ l.length := by
  induction l with
  | nil => simp [List.dropWhile]
  | cons c rest ih =>
    simp only [List.dropWhile]
    cases p c
    · simp
    · simpa using Nat.le_succ_of_le ih

/-- `re.findall(r'(\d+)\s*day', query_lower)`, fuelled so that the recursion is
structural (every call consumes at least one character, so fuel equal to the
input length never runs out): left-to-right non-overlapping scan returning each
maximal digit run that is followed by optional whitespace and the literal
`day`.  (Backtracking inside `\d+` can never produce a match that the maximal
run misses, because a shorter digit run leaves a digit in front of `\s*day`.) -/
def findDaysAux : Nat → List Char → List String
  | _, [] => []
  | 0, _ :: _ => []
  | fuel + 1, c :: rest =>
    if c.isDigit then
      let ds := List.takeWhile Char.isDigit (c :: rest)
      let tail1 := List.dropWhile Char.isDigit (c :: rest)
      let tail2 := List.dropWhile isPySpace tail1
      if "day".toList.isPrefixOf tail2 then
        ds.asString :: findDaysAux fuel (tail2.drop 3)
      else findDaysAux fuel rest
    else findDaysAux fuel rest

/-- All day-number matches of `re.findall(r'(\d+)\s*day', ·)` in a character
list. -/
def findDays (l : List Char) : List String :=
  findDaysAux l.length l

/-- `extract_key_terms` from `hybrid_chat.py` lines 158-184: lower-case the
query, keep every vocabulary term occurring as a substring (travel terms first,
then locations, matching the two `extend` calls), append every day-number
match, and fall back to `['vietnam', 'travel']` when nothing matched. -/
def extract_key_terms (query : String) : List String :=
  let query_lower := pyLower query
  let extracted :=
    (travel_terms.filter fun term => substrB term query_lower)
      ++ (vietnam_locations.filter fun loc => substrB loc query_lower)
      ++ findDays query_lower.toList
  if extracted.isEmpty then ["vietnam", "travel"] else extracted

/-! ## `utils/embeddings.py`

The SentenceTransformer model and the Groq client are external providers: a
call that may raise a Python exception is modelled as `Except String α`, the
error value carrying `str(e)`. -/

/-- The padding/truncation step of `EmbeddingManager.get_embeddings` (lines
38-46): pad with zeros up to 1024 entries, truncate to 1024 otherwise. -/
def padEmbedding (embedding : List Float) : List Float :=
  if embedding.length < 1024 then
    embedding ++ List.replicate (1024 - embedding.length) 0.0
  else
    embedding.take 1024

/-- A zero vector of the fallback dimension (line 51). -/
def zeroVec1024 : List Float :=
  List.replicate 1024 0.0

/-- `EmbeddingManager.get_embeddings` (lines 23-51): empty input short-circuits
to `[]`; otherwise the provider (`self.embedding_model.encode`) is invoked and
each returned embedding is padded/truncated to 1024 entries; if the provider
raises, the `except` branch returns one zero vector of length 1024 per input
text. -/
def get_embeddings (provider : List String → Except String (List (List Float)))
    (texts : List String) : List (List Float) :=
  if texts.isEmpty then []
  else
    match provider texts with
    | .ok embeddings => embeddings.map padEmbedding
    | .error _ => texts.map fun _ => zeroVec1024

/-- The embedding cache of `HybridChatSystem` (`hybrid_chat.py` line 47): a
finite map from hash keys to vectors, modelled as an association list. -/
abbrev EmbCache : Type := List (String × List Float)

/-- Python dict lookup on the association-list cache. -/
def cacheLookup : EmbCache → String → Option (List Float)
  | [], _ => none
  | p :: rest, key => if p.1 = key then some p.2 else cacheLookup rest key

/-- `HybridChatSystem.get_cached_embedding` (`hybrid_chat.py` lines 65-73),
with the cache passed as explicit state and `hashlib.md5(...).hexdigest()`
abstracted as the parameter `md5hex`.  `get_embeddings([text])[0]` raises
`IndexError` when `get_embeddings` returns an empty list (only possible when
the provider returns `ok []` for the singleton input); that uncaught exception
is modelled as result `none`, in which case the assignment on line 72 never
runs and the cache is unchanged. -/
def get_cached_embedding (md5hex : String → String)
    (provider : List String → Except String (List (List Float)))
    (cache : EmbCache) (text : String) : Option (List Float) × EmbCache :=
  let text_hash := md5hex text
  match cacheLookup cache text_hash with
  | some v => (some v, cache)
  | none =>
    match (get_embeddings provider [text]).head? with
    | some embedding => (some embedding, (text_hash, embedding) :: cache)
    | none => (none, cache)

/-! ## `src/hybrid_chat.py`: graph store model

A Neo4j `Location` node with its nullable properties (`Option String`, `none`
modelling a NULL property) and the relation endpoints collected by the
`OPTIONAL MATCH` clauses of the Cypher query at lines 99-133: the name of the
`LOCATED_IN` region node (at most one, `none` when absent) and the lists of
`HAS_TAG` / `NEARBY` names. -/
structure Neo4jLocation where
  id : Option String := none
  name : Option String := none
  type : Option String := none
  region : Option String := none
  description : Option String := none
  best_time_to_visit : Option String := none
  located_in_region_name : Option String := none
  tag_names : List String := []
  nearby_names : List String := []
deriving DecidableEq, Repr

/-- Cypher `toLower(prop) CONTAINS toLower(term)`: false when the property is
NULL. -/
def optContainsLower (prop : Option String) (term : String) : Bool :=
  match prop with
  | none => false
  | some s => substrB (pyLower term) (pyLower s)

/-- The term-matching part of the Cypher `WHERE` clause (lines 101-105):
`any(term IN $terms WHERE toLower(loc.name) CONTAINS toLower(term) OR ...)`. -/
def cypherMatches (terms : List String) (loc : Neo4jLocation) : Bool :=
  terms.any fun term =>
    optContainsLower loc.name term || optContainsLower loc.type term ||
    optContainsLower loc.region term || optContainsLower loc.description term

/-- The quality part of the Cypher `WHERE` clause (lines 108-111):
`loc.name IS NOT NULL AND loc.name <> 'Unknown' AND loc.description IS NOT
NULL AND size(loc.description) > 20`.  Note that it checks the name for NULL,
not for emptiness: an empty-string name passes. -/
def cypherQuality (loc : Neo4jLocation) : Bool :=
  loc.name.isSome && decide (loc.name ≠ some "Unknown") &&
    loc.description.isSome && decide (20 < (loc.description.getD "").length)

/-- `ORDER BY loc.name` comparison on the (non-null after filtering) name. -/
def nameLE (a b : Neo4jLocation) : Prop :=
  a.name.getD "" ≤ b.name.getD ""

instance : DecidableRel nameLE := fun a b =>
  inferInstanceAs (Decidable (a.name.getD "" ≤ b.name.getD ""))

/-- `collect(DISTINCT ...)`: keep the first occurrence of each element. -/
def dedupFirst (l : List String) : List String :=
  l.foldl (fun acc x => if x ∈ acc then acc else acc ++ [x]) []

/-- The full Cypher query (lines 99-133): filter by the `WHERE` clause, order
by name, `LIMIT 10`. -/
def run_cypher (terms : List String) (locations : List Neo4jLocation) :
    List Neo4jLocation :=
  (List.insertionSort nameLE
    (locations.filter fun loc => cypherMatches terms loc && cypherQuality loc)).take 10

/-- The `record_data` dict built at lines 140-149.  Every key named in the
`RETURN` clause is present on each record, so the `.get(key, default)`
defaults never fire and nullable values flow through as `Option`s;
`record.get("region_name") or record.get("region", "")` applies Python's
truthiness: the region node name is used unless it is `None` or empty. -/
structure GraphRecord where
  node_id : Option String
  name : Option String
  type : Option String
  region : Option String
  description : Option String
  best_time : Option String
  tags : List String
  nearby_locations : List String
deriving DecidableEq, Repr

/-- Lines 140-149: map a result row to `record_data`. -/
def toRecord (loc : Neo4jLocation) : GraphRecord :=
  { node_id := loc.id
    name := loc.name
    type := loc.type
    region :=
      match loc.located_in_region_name with
      | some rn => if rn = "" then loc.region else some rn
      | none => loc.region
    description := loc.description
    best_time := loc.best_time_to_visit
    tags := dedupFirst loc.tag_names
    nearby_locations := dedupFirst loc.nearby_names }

/-- A chat message dict `{"role": ..., "content": ...}`. -/
structure Message where
  role : String
  content : String
deriving DecidableEq, Repr

/-- `EmbeddingManager.get_chat_completion` (lines 54-69): one synchronous call
to the Groq client (the provider `groq`, taking the messages and the model
name and either returning the completion text or raising); on success return
the completion text, on a raised exception return the AI-service apology
string embedding `str(e)`. -/
def get_chat_completion (groq : List Message → String → Except String String)
    (messages : List Message) (model : String) : String :=
  match groq messages model with
  | .ok response => response
  | .error e => "I apologize, but I encountered an error with the AI service: " ++ e

/-! ## `src/hybrid_chat.py`: Pinecone data model -/

/-- The metadata dict of a Pinecone match.  `none` models an absent key, so
the `.get(key, default)` defaults in `build_prompt` (lines 214-223) apply. -/
structure PineconeMetadata where
  name : Option String := none
  type : Option String := none
  region : Option String := none
  description : Option String := none
  semantic_text : Option String := none
  tags : List String := []
  best_time_to_visit : Option String := none
deriving Repr

/-- One Pinecone match dict: `match.get('metadata', {})` and
`match.get('score', 0)` read these two possibly-absent keys. -/
structure PineconeMatch where
  metadata : Option PineconeMetadata := none
  score : Option Float := none
deriving Repr

/-! ## `src/hybrid_chat.py`: retrievers, prompt builder, pipeline -/

/-- A live Neo4j driver: the stored location nodes plus flags for the two
ways a connected driver can still fail (`session.run` raising inside the
try/except at lines 135-156, `verify_connectivity` raising at line 300). -/
structure Neo4jDriver where
  locations : List Neo4jLocation
  session_ok : Bool := true
  connect_ok : Bool := true

/-- The `HybridChatSystem` configuration: the external providers and the
optional Neo4j driver (`self.neo4j_driver` is `None` when the store is not
configured or unreachable, lines 33-44).  `md5hex` stands for
`hashlib.md5(...).hexdigest()`; the embedding cache is passed separately as
explicit state. -/
structure HybridChatSystem where
  pinecone_query : List Float → Nat → Except String (List PineconeMatch)
  neo4j_driver : Option Neo4jDriver
  embed_provider : List String → Except String (List (List Float))
  groq : List Message → String → Except String String
  groq_api_key : Option String
  md5hex : String → String

/-- `HybridChatSystem.query_neo4j_async` (lines 91-156): immediately `[]`
without a driver; otherwise extract key terms, run the Cypher query and map
each row to its `record_data`; the try/except returns `[]` if the session
raises. -/
def query_neo4j_async (sys : HybridChatSystem) (query : String) :
    List GraphRecord :=
  match sys.neo4j_driver with
  | none => []
  | some driver =>
    let key_terms := extract_key_terms query
    if driver.session_ok then
      (run_cypher key_terms driver.locations).map toRecord
    else []

/-- `HybridChatSystem.query_pinecone_async` (lines 75-89): embed the query via
the cache (outside the try/except: an exception there propagates, modelled as
`none`), then query the index, degrading to `[]` on an index error. -/
def query_pinecone_async (sys : HybridChatSystem) (cache : EmbCache)
    (query : String) (top_k : Nat := 5) :
    Option (List PineconeMatch × EmbCache) :=
  match get_cached_embedding sys.md5hex sys.embed_provider cache query with
  | (none, _) => none
  | (some query_embedding, cache') =>
    match sys.pinecone_query query_embedding top_k with
    | .ok results => some (results, cache')
    | .error _ => some ([], cache')

/-- `HybridChatSystem.hybrid_search` (lines 186-195): await the Pinecone
branch, and the Neo4j branch when a driver exists (otherwise the awaited
`asyncio.sleep(0)` result is discarded and `[]` substituted). -/
def hybrid_search (sys : HybridChatSystem) (cache : EmbCache) (query : String) :
    Option ((List PineconeMatch × List GraphRecord) × EmbCache) :=
  match query_pinecone_async sys cache query with
  | none => none
  | some (pinecone_results, cache') =>
    let neo4j_results :=
      if sys.neo4j_driver.isSome then query_neo4j_async sys query else []
    some ((pinecone_results, neo4j_results), cache')

/-- `HybridChatSystem.hybrid_search_with_metrics` (lines 197-203): the two
`time.time()` readings around the join become the parameters `t_start`
(line 199) and `t_end` (line 201); the returned search time is their
difference. -/
def hybrid_search_with_metrics (sys : HybridChatSystem) (cache : EmbCache)
    (query : String) (t_start t_end : ℚ) :
    Option ((List PineconeMatch × List GraphRecord × ℚ) × EmbCache) :=
  match hybrid_search sys cache query with
  | none => none
  | some ((pinecone_results, neo4j_results), cache') =>
    some ((pinecone_results, neo4j_results, t_end - t_start), cache')

/-- The system prompt string of `HybridChatSystem.__init__` (lines 50-63). -/
def system_prompt : String :=
  "You are VietnamTravel AI, an expert travel assistant specializing in Vietnam tourism. \n\nUse the provided context from travel databases to create personalized, practical itineraries and recommendations.\n\nRESPONSE GUIDELINES:\n1. Create detailed day-by-day itineraries when asked\n2. Include specific cities, attractions, and practical tips\n3. Consider best times to visit, regions, and travel connections\n4. Suggest logical sequences and connections between locations\n5. Be engaging but concise - focus on actionable advice\n6. When referencing specific places, mention their names and key features\n7. Provide 2-3 concrete itinerary steps or tips based on the context\n\nAlways base recommendations on the provided context data from the travel database."

/-- Python `str()` of a nullable string, as interpolated by an f-string:
`None` renders as `"None"`. -/
def pyStr (o : Option String) : String :=
  match o with
  | some s => s
  | none => "None"

/-- One numbered vector-context line of `build_prompt` (lines 210-227).  The
`:.3f` float formatting of the relevance score is kept abstract as the
parameter `fmt3`; every statement below holds for an arbitrary formatter. -/
def vecSnippet (fmt3 : Float → String) (i : Nat) (m : PineconeMatch) : String :=
  let metadata := m.metadata.getD {}
  let score := m.score.getD 0.0
  let snippet :=
    toString i ++ ". " ++ metadata.name.getD "Unknown" ++ " " ++
    "(Type: " ++ metadata.type.getD "Unknown" ++ ", " ++
    "Region: " ++ metadata.region.getD "Unknown" ++ ") - " ++
    (metadata.description.getD (metadata.semantic_text.getD "")) ++ " "
  let snippet :=
    if metadata.tags.isEmpty then snippet
    else snippet ++ "Tags: " ++ String.intercalate ", " metadata.tags ++ ". "
  snippet ++ "Best time: " ++ metadata.best_time_to_visit.getD "Not specified" ++ ". " ++
    "Relevance score: " ++ fmt3 score

/-- The `vec_context` list of `build_prompt` (lines 209-227): one snippet per
match, first five matches only, numbered from 1 (`enumerate(..., 1)`). -/
def vec_context (fmt3 : Float → String) (pinecone_matches : List PineconeMatch) :
    List String :=
  (List.enumFrom 1 (pinecone_matches.take 5)).map fun p => vecSnippet fmt3 p.1 p.2

/-- One bulleted graph-context line of `build_prompt` (lines 232-248).  The
keys of a `record_data` dict are always present, so the `.get` defaults never
fire; nullable values render through `str()`. -/
def graphSnippet (fact : GraphRecord) : String :=
  let snippet :=
    "• " ++ pyStr fact.name ++ " " ++
    "(" ++ pyStr fact.type ++ ") " ++
    "in " ++ pyStr fact.region ++ ": " ++
    pyStr fact.description ++ " "
  let snippet :=
    if fact.tags.isEmpty then snippet
    else snippet ++ "Features: " ++ String.intercalate ", " (fact.tags.take 3) ++ ". "
  if fact.nearby_locations.isEmpty then snippet
  else snippet ++ "Nearby destinations: " ++
    String.intercalate ", " (fact.nearby_locations.take 2) ++ ". "

/-- The `graph_context` list of `build_prompt` (lines 230-248): one snippet
per fact, first eight facts only. -/
def graph_context (graph_facts : List GraphRecord) : List String :=
  (graph_facts.take 8).map graphSnippet

/-- The user-message content assembled at lines 253-257. -/
def userContent (fmt3 : Float → String) (user_query : String)
    (pinecone_matches : List PineconeMatch) (graph_facts : List GraphRecord) :
    String :=
  "User query: " ++ user_query ++ "\n\n" ++
  "Top travel destinations from database:\n" ++
    String.intercalate "\n" (vec_context fmt3 pinecone_matches) ++ "\n\n" ++
  "Location connections and context:\n" ++
    String.intercalate "\n" (graph_context graph_facts) ++ "\n\n" ++
  "Based on the above Vietnam travel data, provide a helpful response. Include specific cities, attractions, and practical travel advice."

/-- `HybridChatSystem.build_prompt` (lines 205-260): the two-message prompt. -/
def build_prompt (fmt3 : Float → String) (user_query : String)
    (pinecone_matches : List PineconeMatch) (graph_facts : List GraphRecord) :
    List Message :=
  [{ role := "system", content := system_prompt },
   { role := "user", content := userContent fmt3 user_query pinecone_matches graph_facts }]

/-- `GROQ_MODEL` from `config.py` (default value, no environment override). -/
def GROQ_MODEL : String := "llama-3.1-8b-instant"

/-- `HybridChatSystem.generate_response` (lines 262-270): build the prompt and
call `get_chat_completion`.  Against this provider interface
`get_chat_completion` is total (it already catches every provider exception),
so the try/except at lines 266-270 never takes its `except` branch. -/
def generate_response (fmt3 : Float → String) (sys : HybridChatSystem)
    (query : String) (pinecone_results : List PineconeMatch)
    (neo4j_results : List GraphRecord) : String :=
  let prompt := build_prompt fmt3 query pinecone_results neo4j_results
  get_chat_completion sys.groq prompt GROQ_MODEL

/-- `HybridChatSystem.process_query_with_metrics` (lines 272-286).  The six
`time.time()` readings become parameters: `t0` (line 274, `search_start`),
`t1`/`t2` (inside `hybrid_search_with_metrics`), `t3` (line 278,
`response_start`), `t4` (line 280), `t5` (line 282).  The search time returned
by `hybrid_search_with_metrics` is only printed (line 284); the function
returns the total time `t5 - t0`. -/
def process_query_with_metrics (fmt3 : Float → String) (sys : HybridChatSystem)
    (cache : EmbCache) (query : String) (t0 t1 t2 t3 t4 t5 : ℚ) :
    Option ((List PineconeMatch × List GraphRecord × String × ℚ) × EmbCache) :=
  match hybrid_search_with_metrics sys cache query t1 t2 with
  | none => none
  | some ((pinecone_results, neo4j_results, _search_time), cache') =>
    let response := generate_response fmt3 sys query pinecone_results neo4j_results
    let _response_time := t4 - t3
    some ((pinecone_results, neo4j_results, response, t5 - t0), cache')

/-- The system-status dict of `HybridChatSystem.get_system_status`
(lines 288-305). -/
structure SystemStatus where
  pinecone_connected : Bool
  neo4j_connected : Bool
  groq_configured : Bool
  embedding_model_loaded : Bool
deriving DecidableEq, Repr

/-- `HybridChatSystem.get_system_status` (lines 288-305): `neo4j_connected`
starts as `driver is not None` and is overwritten by the
`verify_connectivity` probe when a driver exists. -/
def get_system_status (sys : HybridChatSystem) : SystemStatus :=
  { pinecone_connected := true
    neo4j_connected :=
      match sys.neo4j_driver with
      | none => false
      | some driver => driver.connect_ok
    groq_configured :=
      match sys.groq_api_key with
      | none => false
      | some k => decide (k ≠ "")
    embedding_model_loaded := true }

/-! ## `app.py`: the Streamlit caller -/

/-- The metrics dict built by `StreamlitTravelApp.process_user_query`
(`app.py` lines 436-441). -/
structure SearchMetrics where
  vector_results : Nat
  graph_results : Nat
  search_time : ℚ
  total_time : ℚ
deriving DecidableEq, Repr

/-- `StreamlitTravelApp.process_user_query` (`app.py` lines 423-446) for an
initialized chat system: run `process_query_with_metrics`, then report
`search_time = total_time * 0.6` (line 434, comment `# Estimate search time`;
the float literal `0.6` is modelled as the exact rational `3/5`).  The
second component is the error slot of the except branch (line 446). -/
def process_user_query (fmt3 : Float → String) (sys : HybridChatSystem)
    (cache : EmbCache) (query : String) (t0 t1 t2 t3 t4 t5 : ℚ) :
    Option (List PineconeMatch × List GraphRecord × String × SearchMetrics) ×
      Option String :=
  match process_query_with_metrics fmt3 sys cache query t0 t1 t2 t3 t4 t5 with
  | some ((pinecone_results, neo4j_results, response, total_time), _cache') =>
    let search_time := (3 / 5 : ℚ) * total_time
    (some (pinecone_results, neo4j_results, response,
      { vector_results := pinecone_results.length
        graph_results := neo4j_results.length
        search_time := search_time
        total_time := total_time }), none)
  | none => (none, some "Error processing query: list index out of range")

/-! ## Shared helper lemmas and concrete instances -/

theorem padEmbedding_length (embedding : List Float) :
    (padEmbedding embedding).length = 1024 := by
  unfold padEmbedding
  by_cases h : embedding.length < 1024
  · simp [h]
    omega
  · simp [h]
    omega

theorem zeroVec1024_length : zeroVec1024.length = 1024 := by
  unfold zeroVec1024
  exact List.length_replicate _ _

theorem mem_get_embeddings_length (provider : List String → Except String (List (List Float)))
    (texts : List String) (v : List Float) (hv : v ∈ get_embeddings provider texts) :
    v.length = 1024 := by
  unfold get_embeddings at hv
  by_cases he : texts.isEmpty
  · simp [he] at hv
  · simp only [he, if_false] at hv
    cases hp : provider texts with
    | ok embeddings =>
      rw [hp] at hv
      obtain ⟨e, _, rfl⟩ := List.mem_map.mp hv
      exact padEmbedding_length e
    | error e =>
      rw [hp] at hv
      obtain ⟨t, _, rfl⟩ := List.mem_map.mp hv
      exact zeroVec1024_length

/-- A member of the head of a list. -/
theorem mem_of_head?_eq_some {α : Type} {l : List α} {a : α}
    (h : l.head? = some a) : a ∈ l := by
  cases l with
  | nil => simp at h
  | cons x xs =>
    simp only [List.head?] at h
    injection h with h
    simp [h]

/-- The embedding provider stub used by concrete instances: one vector `[1.0]`
per input text. -/
def stubProvider : List String → Except String (List (List Float)) :=
  fun texts => .ok (texts.map fun _ => [1.0])

/-- An always-failing embedding provider raising `boom`. -/
def failProvider : List String → Except String (List (List Float)) :=
  fun _ => .error "boom"

/-- A trivial stand-in for `hashlib.md5(...).hexdigest()` in witnesses (the
hash function is an abstracted parameter throughout). -/
def idHash : String → String := fun s => s

/-- A concrete `:.3f` formatter stand-in for witnesses (the formatter is an
abstracted parameter throughout). -/
def fmtZero : Float → String := fun _ => "0.000"

/-- The single embedding produced by `stubProvider` after padding. -/
def stubVec : List Float := padEmbedding [1.0]

/-- A chat system with no Neo4j driver, a Pinecone index returning no
matches, and a working completion provider. -/
def sysNoGraph : HybridChatSystem :=
  { pinecone_query := fun _ _ => .ok []
    neo4j_driver := none
    embed_provider := stubProvider
    groq := fun _ _ => .ok "STUB"
    groq_api_key := some "gsk_test"
    md5hex := idHash }

/-- A cache hit returns the stored value of some entry. -/
theorem cacheLookup_mem (cache : EmbCache) (key : String) (v : List Float)
    (h : cacheLookup cache key = some v) : ∃ p ∈ cache, Prod.snd p = v := by
  induction cache with
  | nil => simp [cacheLookup] at h
  | cons q rest ih =>
    by_cases hq : q.1 = key
    · simp only [cacheLookup, hq, if_pos] at h
      injection h with h
      exact ⟨q, by simp, h⟩
    · simp only [cacheLookup, hq, if_neg, not_false_iff] at h
      obtain ⟨p, hp, hv⟩ := ih h
      exact ⟨p, by simp [hp], hv⟩

/-! ## The claims -/

/-- C2: for every list of input texts, every embedding vector returned by
`get_embeddings` has length exactly 1024 (shorter provider outputs are
zero-padded, longer ones truncated), and consequently every vector returned by
`get_cached_embedding` has length 1024 and the cache only ever stores vectors
of length 1024. -/
theorem C2_embedding_dimension
    (provider : List String → Except String (List (List Float)))
    (texts : List String) :
    (∀ v ∈ get_embeddings provider texts, v.length = 1024) ∧
    (∀ (md5hex : String → String) (cache : EmbCache) (text : String)
        (v : List Float) (cache' : EmbCache),
      (∀ p ∈ cache, (Prod.snd p).length = 1024) →
      get_cached_embedding md5hex provider cache text = (some v, cache') →
      v.length = 1024 ∧ ∀ p ∈ cache', (Prod.snd p).length = 1024) := by
  constructor
  · exact fun v hv => mem_get_embeddings_length provider texts v hv
  · intro md5hex cache text v cache' hinv heq
    simp only [get_cached_embedding] at heq
    cases hl : cacheLookup cache (md5hex text) with
    | some w =>
      rw [hl] at heq
      simp only [Prod.mk.injEq, Option.some.injEq] at heq
      obtain ⟨h1, h2⟩ := heq
      obtain ⟨p, hp, hv⟩ := cacheLookup_mem cache (md5hex text) w hl
      constructor
      · rw [← h1, ← hv]
        exact hinv p hp
      · rw [← h2]
        exact hinv
    | none =>
      rw [hl] at heq
      cases hh : (get_embeddings provider [text]).head? with
      | some embedding =>
        rw [hh] at heq
        simp only [Prod.mk.injEq, Option.some.injEq] at heq
        obtain ⟨h1, h2⟩ := heq
        have hlen : embedding.length = 1024 :=
          mem_get_embeddings_length provider [text] embedding (mem_of_head?_eq_some hh)
        constructor
        · rw [← h1]
          exact hlen
        · rw [← h2]
          intro p hp
          rcases List.mem_cons.mp hp with hfirst | hrest
          · rw [hfirst]
            exact hlen
          · exact hinv p hrest
      | none =>
        rw [hh] at heq
        simp at heq

/-- Witness for C2 at a concrete input: a cache miss on `"hello"` with a
provider returning a single short vector yields the padded vector, of length
1024, and a cache whose entries all have length 1024. -/
theorem C2_witness :
    stubVec.length = 1024 ∧ ∀ p ∈ [("hello", stubVec)], (Prod.snd p).length = 1024 :=
  (C2_embedding_dimension stubProvider ["hello"]).2 idHash [] "hello" stubVec
    [("hello", stubVec)] (by simp) rfl

/-- C3 counterexample: the claim says a provider failure on a cache miss is
propagated and nothing is stored, but on the failing provider the call returns
a value (`some` — no exception escapes, because `get_embeddings` swallows the
provider error) and the cache gains an entry for the text. -/
theorem C3_counterexample :
    (get_cached_embedding idHash failProvider [] "hi").1 ≠ none ∧
    (get_cached_embedding idHash failProvider [] "hi").2 ≠ [] := by
  constructor
  · show (some zeroVec1024 : Option (List Float)) ≠ none
    simp
  · show ("hi", zeroVec1024) :: [] ≠ []
    simp

/-- C3 amended: if the embedding provider fails on a cache miss, the error is
not propagated; `get_cached_embedding` returns the zero vector of length 1024
produced by `get_embeddings`'s fallback and stores that zero vector in the
cache under the text's hash. -/
theorem C3_zero_vector_cached (md5hex : String → String)
    (provider : List String → Except String (List (List Float)))
    (cache : EmbCache) (text : String) (e : String)
    (hfail : provider [text] = .error e)
    (hmiss : cacheLookup cache (md5hex text) = none) :
    get_cached_embedding md5hex provider cache text =
      (some zeroVec1024, (md5hex text, zeroVec1024) :: cache) := by
  simp only [get_cached_embedding, hmiss]
  simp [get_embeddings, hfail]

/-- Witness for C3's amended theorem at a concrete input. -/
theorem C3_witness :
    get_cached_embedding idHash failProvider [] "hi" =
      (some zeroVec1024, [("hi", zeroVec1024)]) :=
  C3_zero_vector_cached idHash failProvider [] "hi" "boom" rfl rfl

/-- C10: `get_embeddings` is total and order-preserving: on provider success
with one output per input it returns exactly the provider's vectors, padded,
in order (so one vector per input text, and the empty list yields the empty
list); if the provider raises, it returns one zero vector of length 1024 per
input text instead of propagating. -/
theorem C10_embeddings_total
    (provider : List String → Except String (List (List Float)))
    (texts : List String) :
    (∀ out, provider texts = .ok out → out.length = texts.length →
      get_embeddings provider texts = out.map padEmbedding ∧
      (get_embeddings provider texts).length = texts.length) ∧
    (∀ e, provider texts = .error e →
      get_embeddings provider texts = (texts.map fun _ => zeroVec1024) ∧
      ∀ v ∈ get_embeddings provider texts, v.length = 1024) := by
  constructor
  · intro out hok hlen
    unfold get_embeddings
    by_cases he : texts.isEmpty
    · have htx : texts = [] := List.isEmpty_iff.mp he
      subst htx
      simp only [List.length_nil] at hlen
      have hout : out = [] := List.length_eq_zero.mp hlen
      subst hout
      simp
    · simp [he, hok, hlen]
  · intro e herr
    refine ⟨?_, fun v hv => mem_get_embeddings_length provider texts v hv⟩
    unfold get_embeddings
    by_cases he : texts.isEmpty
    · have htx : texts = [] := List.isEmpty_iff.mp he
      subst htx
      simp
    · simp [he, herr]

/-- Witness for C10 at a concrete input: the stub provider's single vector is
returned padded, one vector for the one input text. -/
theorem C10_witness :
    get_embeddings stubProvider ["a"] = [[(1.0 : Float)]].map padEmbedding ∧
    (get_embeddings stubProvider ["a"]).length = (["a"] : List String).length :=
  (C10_embeddings_total stubProvider ["a"]).1 [[1.0]] rfl rfl

/-- A location node whose name is the empty string (non-NULL) and whose long
description contains the term `romantic`. -/
def locEmptyName : Neo4jLocation :=
  { name := some "", type := some "beach",
    description := some "a romantic beach with golden sand" }

/-- A chat system whose graph store holds exactly `locEmptyName`. -/
def sysEmptyName : HybridChatSystem :=
  { pinecone_query := fun _ _ => .ok []
    neo4j_driver := some { locations := [locEmptyName] }
    embed_provider := stubProvider
    groq := fun _ _ => .ok "STUB"
    groq_api_key := some "gsk_test"
    md5hex := idHash }

/-- C1 counterexample: the claim says every returned graph fact has a
non-empty name, but the Cypher filter only checks `loc.name IS NOT NULL`, so a
record whose name is the empty string (matched through its description) is
returned by `query_neo4j_async`. -/
theorem C1_counterexample :
    ∃ r ∈ query_neo4j_async sysEmptyName "romantic trip", r.name = some "" := by
  decide

/-- C1 amended: every graph fact returned by `query_neo4j_async` has a
non-NULL name that is not `"Unknown"` and a non-NULL description longer than
20 characters (the name may be the empty string, since the source filter
checks `IS NOT NULL` rather than non-emptiness). -/
theorem C1_quality_filter (sys : HybridChatSystem) (query : String)
    (r : GraphRecord) (hr : r ∈ query_neo4j_async sys query) :
    ∃ nm ds, r.name = some nm ∧ nm ≠ "Unknown" ∧
      r.description = some ds ∧ 20 < ds.length := by
  unfold query_neo4j_async at hr
  cases hd : sys.neo4j_driver with
  | none =>
    rw [hd] at hr
    simp at hr
  | some driver =>
    rw [hd] at hr
    by_cases hs : driver.session_ok
    · simp only [hs, if_true] at hr
      obtain ⟨loc, hloc, rfl⟩ := List.mem_map.mp hr
      unfold run_cypher at hloc
      have hloc2 := List.mem_of_mem_take hloc
      have hloc3 := (List.mem_insertionSort nameLE).mp hloc2
      have hpred := (List.mem_filter.mp hloc3).2
      simp only [Bool.and_eq_true] at hpred
      have hq := hpred.2
      unfold cypherQuality at hq
      simp only [Bool.and_eq_true, decide_eq_true_eq, Option.isSome_iff_exists] at hq
      obtain ⟨⟨⟨⟨nm, hnm⟩, hnunk⟩, ds, hds⟩, hdlen⟩ := hq
      refine ⟨nm, ds, ?_, ?_, ?_, ?_⟩
      · show loc.name = some nm
        exact hnm
      · intro hc
        rw [hc] at hnm
        exact hnunk hnm
      · show loc.description = some ds
        exact hds
      · rw [hds] at hdlen
        simpa using hdlen
    · simp only [hs, if_false] at hr
      simp at hr

/-- Witness for C1's amended theorem: the empty-named record returned in the
counterexample instance still satisfies the amended predicate. -/
theorem C1_witness :
    ∃ nm ds, (toRecord locEmptyName).name = some nm ∧ nm ≠ "Unknown" ∧
      (toRecord locEmptyName).description = some ds ∧ 20 < ds.length :=
  C1_quality_filter sysEmptyName "romantic trip" (toRecord locEmptyName) (by decide)

set_option maxRecDepth 40000 in
/-- C4 counterexample: the claim says no placeholder or header text is emitted
for an empty block, but `build_prompt` emits both fixed block headers in the
user message even when both source sequences are empty. -/
theorem C4_counterexample :
    substrB "Top travel destinations from database:"
      (userContent fmtZero "hello" [] []) = true ∧
    substrB "Location connections and context:"
      (userContent fmtZero "hello" [] []) = true :=
  ⟨rfl, rfl⟩

/-- C4 amended: with an empty vector-match (resp. graph-fact) sequence the
rendered vector (resp. graph) block is the empty string — no placeholder
sentence is emitted — but the fixed block headers are present unconditionally
in the assembled user message. -/
theorem C4_empty_blocks (fmt3 : Float → String) (q : String) :
    String.intercalate "\n" (vec_context fmt3 []) = "" ∧
    String.intercalate "\n" (graph_context []) = "" ∧
    userContent fmt3 q [] [] =
      "User query: " ++ q ++ "\n\n" ++
      "Top travel destinations from database:\n" ++ "" ++ "\n\n" ++
      "Location connections and context:\n" ++ "" ++ "\n\n" ++
      "Based on the above Vietnam travel data, provide a helpful response. Include specific cities, attractions, and practical travel advice." :=
  ⟨rfl, rfl, rfl⟩

/-- C9: the prompt renders at most the first 5 vector matches and at most the
first 8 graph facts, in input order: the rendered lists have length
`min · 5` / `min · 8` and truncating the inputs to their first 5 / 8 elements
does not change the rendering. -/
theorem C9_context_caps (fmt3 : Float → String)
    (ms : List PineconeMatch) (facts : List GraphRecord) :
    (vec_context fmt3 ms).length = min ms.length 5 ∧
    vec_context fmt3 ms = vec_context fmt3 (ms.take 5) ∧
    (graph_context facts).length = min facts.length 8 ∧
    graph_context facts = graph_context (facts.take 8) := by
  refine ⟨?_, ?_, ?_, ?_⟩
  · simp [vec_context, Nat.min_comm]
  · simp [vec_context, List.take_take]
  · simp [graph_context, Nat.min_comm]
  · simp [graph_context, List.take_take]

/-- C6 counterexample: the claim says the extractor returns a set with no
duplicate elements, but a query with two day-number matches of the same value
yields a list with a duplicate. -/
theorem C6_counterexample : ¬ (extract_key_terms "4 day 4 day").Nodup := by
  decide

/-- C6 amended: `extract_key_terms` returns a list (which may contain
duplicate day numbers, not a duplicate-free set): it is never empty (falling
back to the two generic terms `vietnam` and `travel` when nothing matches),
it contains every travel term and every location term occurring as a
substring of the lower-cased query as well as every day-number match, and on
the query `Create a romantic 4 day itinerary` it contains `romantic` and
`4`. -/
theorem C6_term_extraction :
    (∀ q : String, extract_key_terms q ≠ []) ∧
    (∀ q : String, ∀ t ∈ travel_terms, substrB t (pyLower q) = true →
      t ∈ extract_key_terms q) ∧
    (∀ q : String, ∀ t ∈ vietnam_locations, substrB t (pyLower q) = true →
      t ∈ extract_key_terms q) ∧
    (∀ q : String, ∀ d ∈ findDays (pyLower q).toList, d ∈ extract_key_terms q) ∧
    extract_key_terms "zzz" = ["vietnam", "travel"] ∧
    "romantic" ∈ extract_key_terms "Create a romantic 4 day itinerary" ∧
    "4" ∈ extract_key_terms "Create a romantic 4 day itinerary" := by
  refine ⟨?_, ?_, ?_, ?_, by decide, by decide, by decide⟩
  · intro q
    simp only [extract_key_terms]
    split
    · simp
    · next hne =>
      intro hc
      rw [hc] at hne
      simp at hne
  · intro q t ht hsub
    have hmem : t ∈ (travel_terms.filter fun term => substrB term (pyLower q)) ++
        (vietnam_locations.filter fun loc => substrB loc (pyLower q)) ++
        findDays (pyLower q).toList :=
      List.mem_append.mpr (Or.inl (List.mem_append.mpr
        (Or.inl (List.mem_filter.mpr ⟨ht, hsub⟩))))
    simp only [extract_key_terms]
    split
    · next hemp =>
      rw [List.isEmpty_iff] at hemp
      rw [hemp] at hmem
      simp at hmem
    · exact hmem
  · intro q t ht hsub
    have hmem : t ∈ (travel_terms.filter fun term => substrB term (pyLower q)) ++
        (vietnam_locations.filter fun loc => substrB loc (pyLower q)) ++
        findDays (pyLower q).toList :=
      List.mem_append.mpr (Or.inl (List.mem_append.mpr
        (Or.inr (List.mem_filter.mpr ⟨ht, hsub⟩))))
    simp only [extract_key_terms]
    split
    · next hemp =>
      rw [List.isEmpty_iff] at hemp
      rw [hemp] at hmem
      simp at hmem
    · exact hmem
  · intro q d hd
    have hmem : d ∈ (travel_terms.filter fun term => substrB term (pyLower q)) ++
        (vietnam_locations.filter fun loc => substrB loc (pyLower q)) ++
        findDays (pyLower q).toList :=
      List.mem_append.mpr (Or.inr hd)
    simp only [extract_key_terms]
    split
    · next hemp =>
      rw [List.isEmpty_iff] at hemp
      rw [hemp] at hmem
      simp at hmem
    · exact hmem

/-- Witness for C6's amended theorem: `romantic` is a travel term occurring in
the scenario query, so it is extracted. -/
theorem C6_witness :
    "romantic" ∈ extract_key_terms "Create a romantic 4 day itinerary" :=
  C6_term_extraction.2.1 "Create a romantic 4 day itinerary" "romantic"
    (by decide) (by decide)

/-- C5 counterexample: with clock readings giving a search phase of
`t2 - t1 = 1` second and a total of `t5 - t0 = 2` seconds, the search time in
the metrics delivered by `process_user_query` is `0.6 × 2 = 1.2`, not the
measured wall-clock search duration `1`. -/
theorem C5_counterexample :
    (process_user_query fmtZero sysNoGraph [] "q" 0 0 1 1 2 2).1.map
      (fun r => r.2.2.2.search_time) ≠ some ((1 : ℚ) - 0) := by
  simp only [process_user_query, process_query_with_metrics,
    hybrid_search_with_metrics, hybrid_search, query_pinecone_async,
    get_cached_embedding, cacheLookup, get_embeddings, sysNoGraph, stubProvider,
    idHash, List.map, List.head?, List.isEmpty, Option.map, Option.isSome]
  norm_num

/-- C5 amended: `hybrid_search_with_metrics` does measure the search duration
as the wall-clock time from launch to join (`t_end - t_start`), but
`process_query_with_metrics` discards that value and returns only the total
duration, and the metrics `process_user_query` delivers to the caller report
`search_time = 0.6 × total_time` — a fixed fraction of the total, not the
measured search-phase duration. -/
theorem C5_search_time_reporting (fmt3 : Float → String)
    (sys : HybridChatSystem) (cache : EmbCache) (q : String)
    (t_start t_end t0 t1 t2 t3 t4 t5 : ℚ) :
    (∀ result cache2,
      hybrid_search_with_metrics sys cache q t_start t_end = some (result, cache2) →
      result.2.2 = t_end - t_start) ∧
    (∀ pr nr resp m,
      (process_user_query fmt3 sys cache q t0 t1 t2 t3 t4 t5).1 = some (pr, nr, resp, m) →
      m.search_time = (3 / 5 : ℚ) * m.total_time ∧ m.total_time = t5 - t0) := by
  constructor
  · intro result cache2 h
    unfold hybrid_search_with_metrics at h
    cases hh : hybrid_search sys cache q with
    | none =>
      rw [hh] at h
      simp at h
    | some x =>
      rw [hh] at h
      obtain ⟨⟨pr, nr⟩, c⟩ := x
      simp only [Option.some.injEq, Prod.mk.injEq] at h
      obtain ⟨h1, h2⟩ := h
      rw [← h1]
  · intro pr nr resp m h
    unfold process_user_query process_query_with_metrics
      hybrid_search_with_metrics at h
    cases hh : hybrid_search sys cache q with
    | none =>
      rw [hh] at h
      simp at h
    | some x =>
      rw [hh] at h
      obtain ⟨⟨pr2, nr2⟩, c⟩ := x
      simp only [Option.some.injEq, Prod.mk.injEq] at h
      obtain ⟨-, -, -, hm⟩ := h
      rw [← hm]
      exact ⟨rfl, rfl⟩

/-- The metrics record produced in the C5 witness instance: total time
`2 - 0`, reported search time `3/5 × (2 - 0)`. -/
def metricsW : SearchMetrics :=
  { vector_results := ([] : List PineconeMatch).length
    graph_results := ([] : List GraphRecord).length
    search_time := (3 / 5 : ℚ) * (2 - 0)
    total_time := (2 : ℚ) - 0 }

/-- Witness for C5's amended theorem at a concrete input. -/
theorem C5_witness :
    metricsW.search_time = (3 / 5 : ℚ) * metricsW.total_time ∧
    metricsW.total_time = 2 - 0 :=
  (C5_search_time_reporting fmtZero sysNoGraph [] "q" 0 1 0 0 1 1 2 2).2
    [] [] "STUB" metricsW rfl

/-- C7: when the graph store is not configured (no driver), the graph
retriever returns the empty sequence, the status probe reports the graph as
not connected, and `hybrid_search` still runs the vector branch and completes,
pairing its result with the empty graph-fact sequence. -/
theorem C7_graph_unconfigured (sys : HybridChatSystem) (cache : EmbCache)
    (q : String) (h : sys.neo4j_driver = none) :
    query_neo4j_async sys q = [] ∧
    (get_system_status sys).neo4j_connected = false ∧
    hybrid_search sys cache q =
      (query_pinecone_async sys cache q).map fun pc => ((pc.1, []), pc.2) := by
  refine ⟨?_, ?_, ?_⟩
  · unfold query_neo4j_async
    rw [h]
  · simp [get_system_status, h]
  · unfold hybrid_search
    rw [h]
    cases hp : query_pinecone_async sys cache q with
    | none => rfl
    | some pc => simp

/-- Witness for C7 at a concrete driverless system. -/
theorem C7_witness :
    query_neo4j_async sysNoGraph "q" = [] ∧
    (get_system_status sysNoGraph).neo4j_connected = false ∧
    hybrid_search sysNoGraph [] "q" =
      (query_pinecone_async sysNoGraph [] "q").map fun pc => ((pc.1, []), pc.2) :=
  C7_graph_unconfigured sysNoGraph [] "q" rfl

/-- C8: if the completion provider raises during response generation, the
generated response is the fixed apologetic message embedding the raised
error's message text (produced by `get_chat_completion`'s handler — the
generation step itself does not raise), and `process_query_with_metrics`
still returns a structurally complete result with the total duration
populated. -/
theorem C8_generation_failure (fmt3 : Float → String)
    (sys : HybridChatSystem) (cache cache2 : EmbCache) (q : String)
    (pr : List PineconeMatch) (nr : List GraphRecord) (e : String)
    (t0 t1 t2 t3 t4 t5 : ℚ)
    (hgen : sys.groq (build_prompt fmt3 q pr nr) GROQ_MODEL = .error e)
    (hsearch : hybrid_search sys cache q = some ((pr, nr), cache2)) :
    generate_response fmt3 sys q pr nr =
      "I apologize, but I encountered an error with the AI service: " ++ e ∧
    process_query_with_metrics fmt3 sys cache q t0 t1 t2 t3 t4 t5 =
      some ((pr, nr,
        "I apologize, but I encountered an error with the AI service: " ++ e,
        t5 - t0), cache2) := by
  have hresp : generate_response fmt3 sys q pr nr =
      "I apologize, but I encountered an error with the AI service: " ++ e := by
    simp only [generate_response, get_chat_completion]
    rw [hgen]
  refine ⟨hresp, ?_⟩
  unfold process_query_with_metrics hybrid_search_with_metrics
  rw [hsearch]
  dsimp only
  rw [hresp]

/-- A chat system whose completion provider always raises `boom`. -/
def sysGroqFail : HybridChatSystem :=
  { pinecone_query := fun _ _ => .ok []
    neo4j_driver := none
    embed_provider := stubProvider
    groq := fun _ _ => .error "boom"
    groq_api_key := some "gsk_test"
    md5hex := idHash }

/-- Witness for C8 at a concrete input. -/
theorem C8_witness :
    generate_response fmtZero sysGroqFail "q" [] [] =
      "I apologize, but I encountered an error with the AI service: " ++ "boom" ∧
    process_query_with_metrics fmtZero sysGroqFail [] "q" 0 0 1 1 2 2 =
      some (([], [],
        "I apologize, but I encountered an error with the AI service: " ++ "boom",
        2 - 0), [("q", stubVec)]) :=
  C8_generation_failure fmtZero sysGroqFail [] [("q", stubVec)] "q" [] [] "boom"
    0 0 1 1 2 2 rfl rfl
